import Mathlib

/-!
Shallow embedding of the notes-app web client (React/TypeScript sources:
`src/services/api.ts`, `src/components/NoteForm.tsx`, `src/pages/Notes.tsx`,
`src/pages/Login.tsx`).

Conventions of the embedding:
* JavaScript strings become `String`; absent / `null` / `undefined` values
  become `Option`.
* JavaScript truthiness of strings (the empty string is falsy) is made
  explicit wherever the source relies on it (`x || y`, `if (x)`).
* Each asynchronous handler is embedded as a pure state transformer that
  receives the outcome of its single HTTP call as an explicit
  `Except ApiError _` argument; the `alert(...)` dialogs it raises and the
  follow-up `loadNotes()` refetch it triggers are returned as data.
* String primitives (`trim`, `startsWith`, `includes`, trailing-slash
  stripping) are embedded as structurally recursive functions on the
  character list of the string, mirroring the JavaScript semantics.
-/

namespace NotesApp

/-- Character-list test used to embed `String.prototype.startsWith`:
`prefixTestCL p l` is true when `p` is an initial segment of `l`. -/
def prefixTestCL : List Char → List Char → Bool
  | [], _ => true
  | _ :: _, [] => false
  | a :: as, b :: bs => a == b && prefixTestCL as bs

/-- Character-list test used to embed `String.prototype.includes`:
true when `pat` occurs contiguously somewhere in the second list. -/
def containsTestCL (pat : List Char) : List Char → Bool
  | [] => prefixTestCL pat []
  | l@(_ :: rest) => prefixTestCL pat l || containsTestCL pat rest

/-- Embeds `s.startsWith(p)` from JavaScript. -/
def jsStartsWith (s p : String) : Bool := prefixTestCL p.data s.data

/-- Embeds `s.includes(p)` from JavaScript. -/
def jsIncludes (s p : String) : Bool := containsTestCL p.data s.data

/-- Embeds `s.endsWith(p)` from JavaScript. -/
def jsEndsWith (s p : String) : Bool := prefixTestCL p.data.reverse s.data.reverse

/-- Embeds `s.trim()` from JavaScript: strips whitespace at both ends. -/
def jsTrim (s : String) : String :=
  ⟨((s.data.dropWhile Char.isWhitespace).reverse.dropWhile Char.isWhitespace).reverse⟩

/-- Embeds the JavaScript idiom `x || d` on an optional string `x`
(both `null`/`undefined` and the empty string fall through to `d`). -/
def jsDefault : Option String → String → String
  | some s, d => if s = "" then d else s
  | none, d => d

/-- Embeds JavaScript truthiness of a `string | null` value. -/
def truthyStr : Option String → Bool
  | some s => s != ""
  | none => false

/-! ## `src/services/api.ts` -/

/-- Build environment visible to `api.ts` through `import.meta.env`. -/
structure Env where
  VITE_API_URL : Option String
  PROD : Bool
deriving DecidableEq, Repr

/-- Embeds `apiUrl.trim().replace(/\x5c\x2f$/, '')`, which removes exactly one
trailing slash. -/
def stripTrailingSlash (s : String) : String :=
  if jsEndsWith s "/" then ⟨s.data.dropLast⟩ else s

/-- `getApiBaseURL` from `src/services/api.ts` (lines 158-175). -/
def getApiBaseURL (env : Env) : String :=
  match env.VITE_API_URL with
  | some apiUrl =>
    if jsTrim apiUrl ≠ "" then
      let trimmed := stripTrailingSlash (jsTrim apiUrl)
      if env.PROD && jsIncludes trimmed "localhost" then "/api"
      else if jsStartsWith trimmed "http://" || jsStartsWith trimmed "https://"
            || jsStartsWith trimmed "/" then trimmed
      else "/api"
    else "/api"
  | none => "/api"

/-- Request headers of an outgoing axios call; only the fields the
interceptors touch are modelled. -/
structure Headers where
  contentType : String
  authorization : Option String
deriving DecidableEq, Repr

/-- The request interceptor from `src/services/api.ts` (lines 193-205):
reads `localStorage.getItem('token')` (modelled as the `Option String`
argument) and, when truthy, sets `Authorization: Bearer <token>`. -/
def requestInterceptor : Option String → Headers → Headers
  | some t, config =>
    if t ≠ "" then { config with authorization := some ("Bearer " ++ t) } else config
  | none, config => config

/-- The two `localStorage` entries the client persists. -/
structure StoredSession where
  token : Option String
  user : Option String
deriving DecidableEq, Repr

/-- Observable outcome of the response-error interceptor: the storage left
behind, the navigation performed via `window.location.href`, and whether the
error is propagated as a rejection. -/
structure InterceptorResult where
  storage : StoredSession
  redirect : Option String
  rejected : Bool
deriving DecidableEq, Repr

/-- The response interceptor's error branch from `src/services/api.ts`
(lines 207-219): on status 401 it removes `token` and `user` from storage and
navigates to `/login`; in every case it returns `Promise.reject(error)`. -/
def responseErrorInterceptor (storage : StoredSession) (status : Option Nat) :
    InterceptorResult :=
  if status = some 401 then
    { storage := { token := none, user := none }, redirect := some "/login", rejected := true }
  else
    { storage := storage, redirect := none, rejected := true }

/-! ## Data model (`src/services/api.ts` type declarations) -/

structure User where
  id : String
  email : String
deriving DecidableEq, Repr

structure Note where
  id : Nat
  title : String
  content : String
  image_url : Option String
  summary : Option String
  user_id : String
  created_at : String
  updated_at : String
deriving DecidableEq, Repr

structure NoteCreate where
  title : String
  content : String
  image_url : Option String
deriving DecidableEq, Repr

/-- Shape of an axios rejection as the handlers read it:
`error.response?.status`, `error.response?.data?.detail`, `error.message`. -/
structure ApiError where
  status : Option Nat
  detail : Option String
  message : Option String
deriving DecidableEq, Repr

/-! ## `src/components/NoteForm.tsx` -/

/-- The `initialData?: Partial<NoteCreate>` prop. -/
structure FormInit where
  title : Option String
  content : Option String
  image_url : Option String
deriving DecidableEq, Repr

/-- Local state of the note composition form. -/
structure FormState where
  title : String
  content : String
  imageUrl : String
  uploading : Bool
deriving DecidableEq, Repr

/-- Observable outcome of one run of `NoteForm.handleSubmit`: either the
submission is blocked with an `alert`, or the caller-supplied handler is
invoked with the normalized draft and the form is left in `after`. -/
inductive SubmitOutcome where
  | blocked (alertMsg : String)
  | submitted (draft : NoteCreate) (after : FormState)
deriving DecidableEq, Repr

/-- `handleSubmit` from `src/components/NoteForm.tsx` (lines 39-58). -/
def formHandleSubmit (initialData : Option FormInit) (s : FormState) : SubmitOutcome :=
  if jsTrim s.title = "" ∨ jsTrim s.content = "" then
    .blocked "Please fill in both title and content"
  else
    .submitted
      { title := jsTrim s.title
        content := jsTrim s.content
        image_url := if s.imageUrl = "" then none else some s.imageUrl }
      (if initialData.isNone then { s with title := "", content := "", imageUrl := "" } else s)

/-! ## `src/pages/Notes.tsx` -/

/-- Local state of the `Notes` screen controller. -/
structure NotesState where
  notes : List Note
  loading : Bool
  showForm : Bool
  selectedNote : Option Note
  summarizing : Option Nat
deriving DecidableEq, Repr

/-- Result of running one handler of the `Notes` controller: the new local
state, the `alert(...)` dialogs raised, and whether a `loadNotes()` refetch
was triggered. -/
structure HandlerOut where
  state : NotesState
  alerts : List String
  refetch : Bool
deriving DecidableEq, Repr

/-- `loadNotes` from `src/pages/Notes.tsx` (lines 19-35); the alert is
suppressed when the failure status is 401. -/
def loadNotes (s : NotesState) (result : Except ApiError (List Note)) : HandlerOut :=
  match result with
  | .ok data =>
    { state := { s with notes := data, loading := false }, alerts := [], refetch := false }
  | .error e =>
    if e.status ≠ some 401 then
      { state := { s with loading := false }
        alerts := ["Failed to load notes: "
          ++ jsDefault e.detail (jsDefault e.message "Failed to load notes")]
        refetch := false }
    else
      { state := { s with loading := false }, alerts := [], refetch := false }

/-- `handleCreateNote` from `src/pages/Notes.tsx` (lines 37-45); any error is
caught and turned into an alert, so the returned promise always resolves. -/
def handleCreateNote (s : NotesState) (result : Except ApiError Note) : HandlerOut :=
  match result with
  | .ok _ =>
    { state := { s with showForm := false }, alerts := [], refetch := true }
  | .error e =>
    { state := s, alerts := [jsDefault e.detail "Failed to create note"], refetch := false }

/-- `handleDeleteNote` from `src/pages/Notes.tsx` (lines 47-61); `confirmed`
is the value of the `confirm(...)` dialog. -/
def handleDeleteNote (s : NotesState) (confirmed : Bool) (id : Nat)
    (result : Except ApiError Unit) : HandlerOut :=
  if !confirmed then { state := s, alerts := [], refetch := false }
  else
    match result with
    | .ok _ =>
      { state := { s with selectedNote :=
          match s.selectedNote with
          | some sel => if sel.id = id then none else some sel
          | none => none }
        alerts := [], refetch := true }
    | .error e =>
      { state := s, alerts := [jsDefault e.detail "Failed to delete note"], refetch := false }

/-- State while a summarize request is outstanding: `setSummarizing(noteId)`
has run (`src/pages/Notes.tsx` line 65). -/
def summarizeInFlight (s : NotesState) (noteId : Nat) : NotesState :=
  { s with summarizing := some noteId }

/-- Completion of `handleSummarize` from `src/pages/Notes.tsx` (lines 63-76):
on success the matching note is replaced in the list and in the selection;
the `finally` clause resets `summarizing` in both branches. -/
def handleSummarize (s : NotesState) (noteId : Nat) (result : Except ApiError Note) :
    HandlerOut :=
  match result with
  | .ok updatedNote =>
    { state := { s with
        notes := s.notes.map (fun n => if n.id = noteId then updatedNote else n)
        selectedNote :=
          match s.selectedNote with
          | some sel => if sel.id = noteId then some updatedNote else some sel
          | none => none
        summarizing := none }
      alerts := [], refetch := false }
  | .error e =>
    { state := { s with summarizing := none }
      alerts := [jsDefault e.detail "Failed to generate summary"], refetch := false }

/-- The `disabled={summarizing === selectedNote.id}` attribute of the
summarize button (`src/pages/Notes.tsx` lines 164-175). -/
def summarizeButtonDisabled (s : NotesState) : Bool :=
  match s.selectedNote with
  | some sel => s.summarizing == some sel.id
  | none => false

/-- Composite behaviour of submitting the new-note form on the `Notes`
screen: `NoteForm` is rendered with `onSubmit={handleCreateNote}` and no
`initialData` (`src/pages/Notes.tsx` lines 101-108). Because
`handleCreateNote` catches its own errors, `await onSubmit(...)` inside
`NoteForm.handleSubmit` always resolves and the form-reset lines run. -/
def createViaForm (ns : NotesState) (fs : FormState) (result : Except ApiError Note) :
    NotesState × FormState × List String :=
  match formHandleSubmit none fs with
  | .blocked a => (ns, fs, [a])
  | .submitted _ after =>
    let out := handleCreateNote ns result
    (out.state, after, out.alerts)

/-- Initial state of the `Notes` controller (`useState` initialisers). -/
def initNotesState : NotesState :=
  { notes := [], loading := true, showForm := false, selectedNote := none, summarizing := none }

/-! ## `src/pages/Login.tsx` -/

/-- Local state of the `Login` screen, together with the externally
observable actions the handlers perform: `navigate(...)` and the
`login(token, user)` call into the session store. -/
structure LoginState where
  email : String
  password : String
  error : String
  success : String
  loading : Bool
  isRegister : Bool
  navigatedTo : Option String
  sessionLogin : Option (String × User)
deriving DecidableEq, Repr

/-- Initial state of the `Login` screen (`useState` initialisers). -/
def initLoginState : LoginState :=
  { email := "", password := "", error := "", success := "", loading := false,
    isRegister := false, navigatedTo := none, sessionLogin := none }

/-- The query parameters the `Login` effect reads via `searchParams.get`. -/
structure SearchParams where
  confirmed : Option String
  success : Option String
  error : Option String
  token_hash : Option String
  type : Option String
deriving DecidableEq, Repr

/-- The `useEffect` over `searchParams` from `src/pages/Login.tsx`
(lines 19-35). -/
def loginUrlEffect (s : LoginState) (p : SearchParams) : LoginState :=
  if p.confirmed = some "true" ∨ p.success = some "true" then
    { s with success := "Email confirmed successfully! You can now log in.", error := "" }
  else if truthyStr p.error then
    { s with error := "Confirmation failed: " ++ p.error.getD "" }
  else if truthyStr p.token_hash && truthyStr p.type then
    { s with success := "Processing email confirmation..." }
  else s

/-- Response of `authAPI.register` / `authAPI.login` as `handleSubmit` reads
it; `requires_confirmation` models the truthiness of the server field of the
same name. -/
structure AuthResponse where
  access_token : String
  user : User
  requires_confirmation : Bool
  message : Option String
deriving DecidableEq, Repr

/-- `handleSubmit` from `src/pages/Login.tsx` (lines 37-60). -/
def loginHandleSubmit (s : LoginState) (resp : Except ApiError AuthResponse) : LoginState :=
  let s0 := { s with error := "", loading := true }
  match resp with
  | .ok r =>
    if r.requires_confirmation then
      { s0 with error := jsDefault r.message "Please check your email to confirm your account."
                loading := false }
    else
      { s0 with sessionLogin := some (r.access_token, r.user)
                navigatedTo := some "/notes"
                loading := false }
  | .error err =>
    { s0 with error := jsDefault err.detail (jsDefault err.message "An error occurred")
              loading := false }

/-- Calls into the auth facade (`authAPI.register` / `authAPI.login`). -/
inductive ApiCall where
  | registerCall (email password : String)
  | loginCall (email password : String)
deriving DecidableEq, Repr

/-- The events the `Login` screen reacts to. -/
inductive LoginEvent where
  | urlParams (p : SearchParams)
  | submit (resp : Except ApiError AuthResponse)
  | toggleMode

/-- One step of the `Login` controller: the state update of the event's
handler, paired with the facade requests that handler issues.  The
`useEffect` (`urlParams`) and the mode-toggle button issue none; `submit`
issues exactly one register/login call (`src/pages/Login.tsx`). -/
def loginStep (s : LoginState) (e : LoginEvent) : LoginState × List ApiCall :=
  match e with
  | .urlParams p => (loginUrlEffect s p, [])
  | .submit resp =>
    (loginHandleSubmit s resp,
     [if s.isRegister then .registerCall s.email s.password else .loginCall s.email s.password])
  | .toggleMode => ({ s with isRegister := !s.isRegister, error := "" }, [])

/-! ## Specification-side definitions for the base-URL claim -/

/-- Follows the words of the base-URL claim: the override is rejected when it
points at localhost in a production build, or when it is neither an absolute
http(s) URL nor a root-relative path; the claim states these tests on the
supplied value itself (no normalization is mentioned). -/
def specValidOverride (env : Env) (v : String) : Bool :=
  !(env.PROD && jsIncludes v "localhost") &&
  (jsStartsWith (jsTrim v) "http://" || jsStartsWith (jsTrim v) "https://"
    || jsStartsWith (jsTrim v) "/")

/-- Base-URL resolution as the claim words it: a set, non-blank override is
preferred (returned, up to whitespace/trailing-slash normalization) unless
one of the rejection rules applies; otherwise `/api`. -/
def specApiBaseURL (env : Env) : String :=
  match env.VITE_API_URL with
  | none => "/api"
  | some v =>
    if jsTrim v = "" then "/api"
    else if specValidOverride env v then stripTrailingSlash (jsTrim v)
    else "/api"

/-- Normal form the source applies to the override before validating it:
whitespace trimmed, one trailing slash removed. -/
def normalizeOverride (s : String) : String := stripTrailingSlash (jsTrim s)

/-- Validity test of the amended claim, applied to the normalized override. -/
def validOverride (env : Env) (n : String) : Bool :=
  !(env.PROD && jsIncludes n "localhost") &&
  (jsStartsWith n "http://" || jsStartsWith n "https://" || jsStartsWith n "/")

/-- Base-URL resolution as amended: validation runs on the normalized
override and the accepted override is returned in normalized form. -/
def amendedApiBaseURL (env : Env) : String :=
  match env.VITE_API_URL with
  | none => "/api"
  | some v =>
    if jsTrim v = "" then "/api"
    else if validOverride env (normalizeOverride v) then normalizeOverride v
    else "/api"

/-! ## Concrete fixtures used by witnesses and counterexamples -/

/-- Concrete note used in witnesses. -/
def noteA : Note :=
  { id := 1, title := "A", content := "ca", image_url := none, summary := none,
    user_id := "u", created_at := "d1", updated_at := "d1" }

/-- Concrete note used in witnesses. -/
def noteB : Note :=
  { id := 2, title := "B", content := "cb", image_url := none, summary := none,
    user_id := "u", created_at := "d2", updated_at := "d2" }

/-- `noteA` after the server attached a summary. -/
def noteA' : Note := { noteA with summary := some "sum" }

/-- A concrete `Notes` state holding `noteA` and `noteB` with `noteA`
selected. -/
def twoNotesState : NotesState :=
  { initNotesState with notes := [noteA, noteB], selectedNote := some noteA }

/-! ## Theorems -/

/-- C9: for every outgoing request, a (non-empty) session token in durable
storage yields the header `Authorization: Bearer <token>`; with no token in
storage (and likewise for the degenerate empty-string entry, which the
source's truthiness test treats as no token) the request config is left
untouched and no Authorization header is attached. -/
theorem request_attaches_bearer_token (config : Headers) :
    requestInterceptor none config = config ∧
    requestInterceptor (some "") config = config ∧
    (∀ t : String, t ≠ "" →
      requestInterceptor (some t) config =
        { config with authorization := some ("Bearer " ++ t) }) := by
  refine ⟨rfl, by simp [requestInterceptor], ?_⟩
  intro t ht
  simp [requestInterceptor, ht]

/-- Witness for `request_attaches_bearer_token` at a concrete token. -/
theorem request_attaches_bearer_token_witness :
    requestInterceptor (some "tok123") { contentType := "application/json", authorization := none }
      = { contentType := "application/json", authorization := some ("Bearer " ++ "tok123") } :=
  (request_attaches_bearer_token
    { contentType := "application/json", authorization := none }).2.2 "tok123" (by decide)

/-- C6, counterexample: the override value `"/"` is set, non-blank, not a
localhost value, and is a root-relative path, so the claim's reading accepts
it; the source, however, validates the value only after stripping its
trailing slash (leaving the empty string) and therefore falls back to
`/api`. -/
theorem api_base_url_counterexample :
    specApiBaseURL { VITE_API_URL := some "/", PROD := false } = "" ∧
    getApiBaseURL { VITE_API_URL := some "/", PROD := false } = "/api" ∧
    ("" : String) ≠ "/api" := by
  refine ⟨by decide, by decide, by decide⟩

/-- C6 as amended: base-URL resolution prefers the configured override, but
validates it (absolute http(s) URL or root-relative path; no localhost in a
production build) only after normalizing it — trimming whitespace and
stripping one trailing slash — and returns the accepted override in that
normalized form; in every other case the result is `/api`. -/
theorem api_base_url_amended (env : Env) :
    getApiBaseURL env = amendedApiBaseURL env := by
  rcases env with ⟨v, prod⟩
  cases v with
  | none => rfl
  | some s =>
    by_cases h : jsTrim s = ""
    · simp [getApiBaseURL, amendedApiBaseURL, h]
    · cases hL : prod && jsIncludes (stripTrailingSlash (jsTrim s)) "localhost" with
      | true =>
        simp [getApiBaseURL, amendedApiBaseURL, validOverride, normalizeOverride, h, hL]
      | false =>
        cases hS : jsStartsWith (stripTrailingSlash (jsTrim s)) "http://"
            || jsStartsWith (stripTrailingSlash (jsTrim s)) "https://"
            || jsStartsWith (stripTrailingSlash (jsTrim s)) "/" with
        | true =>
          simp [getApiBaseURL, amendedApiBaseURL, validOverride, normalizeOverride, h, hL, hS]
        | false =>
          simp [getApiBaseURL, amendedApiBaseURL, validOverride, normalizeOverride, h, hL, hS]

/-- C5: the composition form blocks submission unless both title and content
are non-empty after trimming; when it proceeds, the caller-supplied handler
receives the trimmed title, trimmed content, and the image URL (or `none`
when the field is empty); and the fields are reset afterwards if and only if
no `initialData` prop was supplied. -/
theorem noteform_submit_correct (initialData : Option FormInit) (s : FormState) :
    ((jsTrim s.title = "" ∨ jsTrim s.content = "") →
      formHandleSubmit initialData s = .blocked "Please fill in both title and content") ∧
    (∀ d after, formHandleSubmit initialData s = .submitted d after →
      (jsTrim s.title ≠ "" ∧ jsTrim s.content ≠ "") ∧
      d.title = jsTrim s.title ∧
      d.content = jsTrim s.content ∧
      d.image_url = (if s.imageUrl = "" then none else some s.imageUrl) ∧
      (initialData = none → after = { s with title := "", content := "", imageUrl := "" }) ∧
      (∀ i, initialData = some i → after = s)) := by
  constructor
  · intro h
    simp [formHandleSubmit, h]
  · intro d after hsub
    by_cases h : jsTrim s.title = "" ∨ jsTrim s.content = ""
    · simp [formHandleSubmit, h] at hsub
    · push_neg at h
      simp [formHandleSubmit, h.1, h.2] at hsub
      obtain ⟨hd, ha⟩ := hsub
      refine ⟨⟨h.1, h.2⟩, ?_, ?_, ?_, ?_, ?_⟩
      · rw [← hd]
      · rw [← hd]
      · rw [← hd]
      · intro hinit
        subst hinit
        simpa using ha.symm
      · intro i hinit
        subst hinit
        simpa using ha.symm

/-- Witness for `noteform_submit_correct`: a new-note form (no initial data)
with title `" Groceries "` and content `"Milk, eggs"` submits the trimmed
draft and resets its fields. -/
theorem noteform_submit_correct_witness :
    (FormState.mk "" "" "" false =
      { FormState.mk " Groceries " "Milk, eggs" "" false with
          title := "", content := "", imageUrl := "" }) ∧
    (NoteCreate.mk "Groceries" "Milk, eggs" none).title =
      jsTrim (FormState.mk " Groceries " "Milk, eggs" "" false).title :=
  ⟨((noteform_submit_correct none (FormState.mk " Groceries " "Milk, eggs" "" false)).2
      (NoteCreate.mk "Groceries" "Milk, eggs" none)
      (FormState.mk "" "" "" false) (by decide)).2.2.2.2.1 rfl,
   ((noteform_submit_correct none (FormState.mk " Groceries " "Milk, eggs" "" false)).2
      (NoteCreate.mk "Groceries" "Milk, eggs" none)
      (FormState.mk "" "" "" false) (by decide)).2.1⟩

/-- C1, counterexample: a 401 rejection reaching `handleCreateNote` does
surface a user-facing alert dialog at the originating call site — unlike
`loadNotes`, the create handler has no status-401 guard around its
`alert(...)`. -/
theorem unauthorized_create_alert_counterexample :
    (handleCreateNote initNotesState
        (.error { status := some 401, detail := none, message := none })).alerts =
      ["Failed to create note"] ∧
    (["Failed to create note"] : List String) ≠ [] := by
  refine ⟨by decide, by decide⟩

/-- C1 as amended: on every HTTP 401, from any endpoint, the adapter clears
the stored session (`token` and `user` removed), redirects to `/login`, and
propagates a rejected result; the notes-loading call site suppresses its
user-facing alert for a 401, but the create, delete and summarize call sites
still raise their generic alert dialog even when the failure is a 401. -/
theorem unauthorized_handling (storage : StoredSession) (s : NotesState)
    (id noteId : Nat) (d m : Option String) :
    responseErrorInterceptor storage (some 401) =
      { storage := { token := none, user := none }, redirect := some "/login",
        rejected := true } ∧
    (loadNotes s (.error { status := some 401, detail := d, message := m })).alerts = [] ∧
    (handleCreateNote s (.error { status := some 401, detail := d, message := m })).alerts =
      [jsDefault d "Failed to create note"] ∧
    (handleDeleteNote s true id (.error { status := some 401, detail := d, message := m })).alerts =
      [jsDefault d "Failed to delete note"] ∧
    (handleSummarize s noteId
        (.error { status := some 401, detail := d, message := m })).alerts =
      [jsDefault d "Failed to generate summary"] := by
  refine ⟨rfl, by simp [loadNotes], rfl, by simp [handleDeleteNote], rfl⟩

/-- C2: a login/register response carrying the `requires_confirmation`
signal is not treated as success: the session store is not called (no token
stored, session not established), no navigation away from the login screen
happens, and a non-empty inline message is shown. -/
theorem login_confirmation_not_success (s : LoginState) (tok : String) (u : User)
    (msg : Option String) :
    (loginHandleSubmit s (.ok
        { access_token := tok, user := u, requires_confirmation := true,
          message := msg })).sessionLogin = s.sessionLogin ∧
    (loginHandleSubmit s (.ok
        { access_token := tok, user := u, requires_confirmation := true,
          message := msg })).navigatedTo = s.navigatedTo ∧
    (loginHandleSubmit s (.ok
        { access_token := tok, user := u, requires_confirmation := true,
          message := msg })).error ≠ "" := by
  refine ⟨rfl, rfl, ?_⟩
  cases msg with
  | none => simp [loginHandleSubmit, jsDefault]
  | some mv =>
    by_cases hm : mv = "" <;> simp [loginHandleSubmit, jsDefault, hm]

/-- Witness for `login_confirmation_not_success`: from the initial login
state a confirmation-required response leaves no session and no navigation. -/
theorem login_confirmation_not_success_witness :
    (loginHandleSubmit initLoginState (.ok
        { access_token := "t0", user := { id := "u1", email := "a@b.c" },
          requires_confirmation := true, message := none })).sessionLogin =
      initLoginState.sessionLogin ∧
    (loginHandleSubmit initLoginState (.ok
        { access_token := "t0", user := { id := "u1", email := "a@b.c" },
          requires_confirmation := true, message := none })).navigatedTo =
      initLoginState.navigatedTo ∧
    (loginHandleSubmit initLoginState (.ok
        { access_token := "t0", user := { id := "u1", email := "a@b.c" },
          requires_confirmation := true, message := none })).error ≠ "" :=
  login_confirmation_not_success initLoginState "t0" { id := "u1", email := "a@b.c" } none

/-- C3: a successful summarize of note `noteId` replaces exactly the notes
whose identifier equals `noteId` (position by position; every other note is
left untouched), updates the selection only when the selected note has that
identifier, and — when the server response differs from the old note only in
its `summary` field — leaves the displayed title and content of the note
unchanged with only the summary differing. -/
theorem summarize_replaces_only_target (s : NotesState) (noteId : Nat) (upd : Note)
    (idx : Nat) (n : Note) (hn : s.notes[idx]? = some n) :
    (n.id ≠ noteId →
      (handleSummarize s noteId (.ok upd)).state.notes[idx]? = some n) ∧
    (n.id = noteId →
      (handleSummarize s noteId (.ok upd)).state.notes[idx]? = some upd) ∧
    (∀ sel, s.selectedNote = some sel →
      (sel.id = noteId →
        (handleSummarize s noteId (.ok upd)).state.selectedNote = some upd) ∧
      (sel.id ≠ noteId →
        (handleSummarize s noteId (.ok upd)).state.selectedNote = some sel)) ∧
    (∀ sum0 : Option String, upd = { n with summary := sum0 } → n.id = noteId →
      (handleSummarize s noteId (.ok upd)).state.notes[idx]? =
        some { n with summary := sum0 }) := by
  refine ⟨?_, ?_, ?_, ?_⟩
  · intro hne
    simp [handleSummarize, hn, hne]
  · intro heq
    simp [handleSummarize, hn, heq]
  · intro sel hsel
    constructor
    · intro heq
      simp [handleSummarize, hsel, heq]
    · intro hne
      simp [handleSummarize, hsel, hne]
  · intro sum0 hupd heq
    subst hupd
    simp [handleSummarize, hn, heq]

/-- Witness for `summarize_replaces_only_target`: in `twoNotesState`
(notes `noteA`, `noteB`; `noteA` selected), summarizing note 1 with a server
note that only adds a summary replaces `noteA` in the list and in the
selection and leaves `noteB` untouched. -/
theorem summarize_replaces_only_target_witness :
    (handleSummarize twoNotesState 1 (.ok noteA')).state.notes[1]? = some noteB ∧
    (handleSummarize twoNotesState 1 (.ok noteA')).state.notes[0]? = some noteA' ∧
    (handleSummarize twoNotesState 1 (.ok noteA')).state.selectedNote = some noteA' :=
  ⟨(summarize_replaces_only_target twoNotesState 1 noteA' 1 noteB (by decide)).1 (by decide),
   (summarize_replaces_only_target twoNotesState 1 noteA' 0 noteA (by decide)).2.2.2
      (some "sum") rfl rfl,
   ((summarize_replaces_only_target twoNotesState 1 noteA' 0 noteA (by decide)).2.2.1
      noteA rfl).1 rfl⟩

/-- C4, counterexample: a failed create does not leave the composition draft
as it was. `handleCreateNote` swallows the rejection, so `await onSubmit`
inside the form resolves and the new-note form clears its fields even though
the create failed. -/
theorem failed_create_clears_draft_counterexample :
    (createViaForm initNotesState
        { title := "Groceries", content := "Milk, eggs", imageUrl := "", uploading := false }
        (.error { status := some 500, detail := none, message := none })).2.1 =
      { title := "", content := "", imageUrl := "", uploading := false } ∧
    ({ title := "", content := "", imageUrl := "", uploading := false } : FormState) ≠
      { title := "Groceries", content := "Milk, eggs", imageUrl := "", uploading := false } := by
  refine ⟨by decide, by decide⟩

/-- C4 as amended: a failed delete, summarize or load leaves the note list,
the current selection (and for delete the whole controller state) unchanged
and triggers no refetch; a failed create likewise leaves the note list,
selection and form visibility unchanged, but the composition draft is
cleared (exactly as on success) whenever the form validation had passed,
because the create handler swallows the rejection. -/
theorem failed_ops_leave_state (ns : NotesState) (fs : FormState) (id noteId : Nat)
    (e : ApiError) :
    (handleDeleteNote ns true id (.error e)).state = ns ∧
    (handleDeleteNote ns true id (.error e)).refetch = false ∧
    (handleSummarize ns noteId (.error e)).state.notes = ns.notes ∧
    (handleSummarize ns noteId (.error e)).state.selectedNote = ns.selectedNote ∧
    (loadNotes ns (.error e)).state.notes = ns.notes ∧
    (loadNotes ns (.error e)).state.selectedNote = ns.selectedNote ∧
    (createViaForm ns fs (.error e)).1 = ns ∧
    ((jsTrim fs.title = "" ∨ jsTrim fs.content = "") →
      (createViaForm ns fs (.error e)).2.1 = fs) ∧
    (jsTrim fs.title ≠ "" → jsTrim fs.content ≠ "" →
      (createViaForm ns fs (.error e)).2.1 =
        { fs with title := "", content := "", imageUrl := "" }) := by
  refine ⟨by simp [handleDeleteNote], by simp [handleDeleteNote], rfl, rfl, ?_, ?_, ?_, ?_, ?_⟩
  · by_cases h : e.status = some 401 <;> simp [loadNotes, h]
  · by_cases h : e.status = some 401 <;> simp [loadNotes, h]
  · unfold createViaForm
    cases hsub : formHandleSubmit none fs with
    | blocked a => rfl
    | submitted d after => rfl
  · intro h
    simp [createViaForm, formHandleSubmit, h]
  · intro h1 h2
    simp [createViaForm, formHandleSubmit, h1, h2, handleCreateNote]

/-- Witness for `failed_ops_leave_state` at a concrete state, draft and
error. -/
theorem failed_ops_leave_state_witness :
    (handleDeleteNote twoNotesState true 1
        (.error { status := some 500, detail := none, message := none })).state =
      twoNotesState ∧
    (createViaForm twoNotesState
        { title := "T", content := "C", imageUrl := "", uploading := false }
        (.error { status := some 500, detail := none, message := none })).2.1 =
      { FormState.mk "T" "C" "" false with title := "", content := "", imageUrl := "" } :=
  ⟨(failed_ops_leave_state twoNotesState (FormState.mk "T" "C" "" false) 1 1
      { status := some 500, detail := none, message := none }).1,
   (failed_ops_leave_state twoNotesState (FormState.mk "T" "C" "" false) 1 1
      { status := some 500, detail := none, message := none }).2.2.2.2.2.2.2.2
      (by decide) (by decide)⟩

/-- C7, counterexample: the confirmation-error value is not rendered
verbatim as the inline error. With only `error=boom` in the query the inline
error is the prefixed string `"Confirmation failed: boom"`, not `"boom"`;
and when `confirmed=true` accompanies `error=boom`, the error value is not
rendered at all (the success branch wins and clears the error). -/
theorem confirmation_error_not_verbatim_counterexample :
    (loginUrlEffect initLoginState
        { confirmed := none, success := none, error := some "boom",
          token_hash := none, type := none }).error = "Confirmation failed: boom" ∧
    ("Confirmation failed: boom" : String) ≠ "boom" ∧
    (loginUrlEffect initLoginState
        { confirmed := some "true", success := none, error := some "boom",
          token_hash := none, type := none }).error = "" ∧
    ("" : String) ≠ "boom" := by
  refine ⟨by decide, by decide, by decide, by decide⟩

/-- C7 as amended: processing the navigation query parameters issues no
request; parameters indicating a completed confirmation render the success
banner (and clear the inline error), taking precedence over any error
parameter; otherwise a non-empty confirmation-error value `v` is rendered as
the inline error in the form `"Confirmation failed: " ++ v` — the value
appears verbatim inside that prefixed message, not as the whole message. -/
theorem login_url_params_behaviour (s : LoginState) (p : SearchParams) :
    (loginStep s (.urlParams p)).2 = [] ∧
    ((p.confirmed = some "true" ∨ p.success = some "true") →
      (loginUrlEffect s p).success = "Email confirmed successfully! You can now log in." ∧
      (loginUrlEffect s p).error = "") ∧
    (p.confirmed ≠ some "true" → p.success ≠ some "true" →
      ∀ v : String, p.error = some v → v ≠ "" →
        (loginUrlEffect s p).error = "Confirmation failed: " ++ v) := by
  refine ⟨rfl, ?_, ?_⟩
  · intro h
    simp [loginUrlEffect, h]
  · intro h1 h2 v hv hne
    have hcond : ¬(p.confirmed = some "true" ∨ p.success = some "true") := by
      intro hor
      cases hor with
      | inl hh => exact h1 hh
      | inr hh => exact h2 hh
    simp [loginUrlEffect, hcond, hv, truthyStr, hne]

/-- Witness for `login_url_params_behaviour`: a query with only
`error=boom` yields the prefixed inline error, and a query with
`confirmed=true` yields the success banner with no request issued. -/
theorem login_url_params_behaviour_witness :
    (loginUrlEffect initLoginState
        { confirmed := none, success := none, error := some "boom",
          token_hash := none, type := none }).error = "Confirmation failed: " ++ "boom" ∧
    (loginUrlEffect initLoginState
        { confirmed := some "true", success := none, error := none,
          token_hash := none, type := none }).success =
      "Email confirmed successfully! You can now log in." ∧
    (loginStep initLoginState (.urlParams
        { confirmed := some "true", success := none, error := none,
          token_hash := none, type := none })).2 = [] :=
  ⟨(login_url_params_behaviour initLoginState
      { confirmed := none, success := none, error := some "boom",
        token_hash := none, type := none }).2.2 (by decide) (by decide) "boom" rfl
      (by decide),
   ((login_url_params_behaviour initLoginState
      { confirmed := some "true", success := none, error := none,
        token_hash := none, type := none }).2.1 (Or.inl rfl)).1,
   (login_url_params_behaviour initLoginState
      { confirmed := some "true", success := none, error := none,
        token_hash := none, type := none }).1⟩

/-- C8: no single event of the login controller displays both banners.
From the initial (all-clear) state, any one event leaves the inline error
empty or the success banner empty; and from an arbitrary state, no event
simultaneously introduces a non-empty error and a non-empty success — each
event writes at most one of the two banners. -/
theorem login_banners_exclusive (e : LoginEvent) :
    ((loginStep initLoginState e).1.error = "" ∨
      (loginStep initLoginState e).1.success = "") ∧
    (∀ s : LoginState,
      (loginStep s e).1.error = "" ∨ (loginStep s e).1.success = "" ∨
      (loginStep s e).1.error = s.error ∨ (loginStep s e).1.success = s.success) := by
  constructor
  · cases e with
    | urlParams p =>
      by_cases h1 : p.confirmed = some "true" ∨ p.success = some "true"
      · simp [loginStep, loginUrlEffect, h1]
      · by_cases h2 : truthyStr p.error = true
        · simp [loginStep, loginUrlEffect, h1, h2, initLoginState]
        · by_cases h3 : truthyStr p.token_hash = true ∧ truthyStr p.type = true
          · simp [loginStep, loginUrlEffect, h1, h2, h3, initLoginState]
          · simp [loginStep, loginUrlEffect, h1, h2, h3, initLoginState]
    | submit resp =>
      cases resp with
      | ok r =>
        by_cases h : r.requires_confirmation
        · simp [loginStep, loginHandleSubmit, h, initLoginState]
        · simp [loginStep, loginHandleSubmit, h, initLoginState]
      | error err => simp [loginStep, loginHandleSubmit, initLoginState]
    | toggleMode => simp [loginStep]
  · intro s
    cases e with
    | urlParams p =>
      by_cases h1 : p.confirmed = some "true" ∨ p.success = some "true"
      · simp [loginStep, loginUrlEffect, h1]
      · by_cases h2 : truthyStr p.error = true
        · simp [loginStep, loginUrlEffect, h1, h2]
        · by_cases h3 : truthyStr p.token_hash = true ∧ truthyStr p.type = true
          · simp [loginStep, loginUrlEffect, h1, h2, h3]
          · simp [loginStep, loginUrlEffect, h1, h2, h3]
    | submit resp =>
      cases resp with
      | ok r =>
        by_cases h : r.requires_confirmation
        · simp [loginStep, loginHandleSubmit, h]
        · simp [loginStep, loginHandleSubmit, h]
      | error err => simp [loginStep, loginHandleSubmit]
    | toggleMode => simp [loginStep]

/-- C10: around every summarize attempt the `summarizing` indicator holds
the target note's id while the request is in flight — so the summarize
button of a selected note is disabled exactly when that note is the target —
and is reset to `none` whether the request resolves or rejects, re-enabling
the button for every selected note afterwards. -/
theorem summarizing_indicator_lifecycle (s : NotesState) (noteId : Nat)
    (result : Except ApiError Note) :
    (summarizeInFlight s noteId).summarizing = some noteId ∧
    (∀ sel : Note,
      (summarizeButtonDisabled
          { summarizeInFlight s noteId with selectedNote := some sel } = true ↔
        sel.id = noteId)) ∧
    (handleSummarize (summarizeInFlight s noteId) noteId result).state.summarizing = none ∧
    (∀ sel : Note,
      summarizeButtonDisabled
        { (handleSummarize (summarizeInFlight s noteId) noteId result).state with
            selectedNote := some sel } = false) := by
  refine ⟨rfl, ?_, ?_, ?_⟩
  · intro sel
    simp only [summarizeButtonDisabled, summarizeInFlight]
    constructor
    · intro h
      exact ((Option.some_inj.mp (eq_of_beq h))).symm
    · intro h
      subst h
      exact beq_self_eq_true _
  · cases result with
    | ok upd => rfl
    | error e => rfl
  · intro sel
    cases result with
    | ok upd => simp [summarizeButtonDisabled, handleSummarize, summarizeInFlight]
    | error e => simp [summarizeButtonDisabled, handleSummarize, summarizeInFlight]
